import Mathlib

/-!
# Auto Email Draft Assistant — prompt builder and response postprocessor

A shallow embedding of the deterministic core of `app.py` (a Streamlit
single-page app): the prompt-construction pipeline (lines 59–77), the
response postprocessing with its length-50 fallback (lines 90–103), the
required-field gate (line 56) and the surrounding error handling
(lines 116–120).  The generation engine itself is opaque and is passed in
as a function from prompt to raw text.

Strings are modelled by Lean `String` (a list of unicode characters), and
the Python operations used by the app (`str.replace` with an empty
replacement, `str.strip`, `len`, truthiness of strings) are given
executable character-list definitions below.
-/

/-! ## Python string primitives -/

/-- Characters removed by Python `str.strip()`.  The app's strings only ever
contain ASCII whitespace, so the ASCII whitespace class suffices here. -/
def pyIsSpace (c : Char) : Bool :=
  c == ' ' || c == '\t' || c == '\n' || c == '\r' || c == Char.ofNat 11 || c == Char.ofNat 12

/-- Python `s.strip()`: drop leading and trailing whitespace. -/
def pyStrip (s : String) : String :=
  String.mk (((s.data.dropWhile pyIsSpace).reverse.dropWhile pyIsSpace).reverse)

/-- Python `str.lower` on one character; every string it is applied to in
the app is an ASCII tone label, where lowering is the ASCII shift. -/
def pyLowerChar (c : Char) : Char :=
  if 65 ≤ c.toNat && c.toNat ≤ 90 then Char.ofNat (c.toNat + 32) else c

/-- Python `s.lower()` (on the ASCII labels the app applies it to). -/
def pyLower (s : String) : String := String.mk (s.data.map pyLowerChar)

/-- Does `s` begin with the pattern given as its second argument? -/
def beginsWith (s pat : List Char) : Bool :=
  match pat, s with
  | [], _ => true
  | _ :: _, [] => false
  | q :: qs, c :: s => c == q && beginsWith s qs

/-- Does the nonempty pattern `p :: ps` occur anywhere in the list? -/
def containsL (p : Char) (ps : List Char) : List Char → Bool
  | [] => false
  | c :: s => beginsWith (c :: s) (p :: ps) || containsL p ps s

/-- Substring test at the `String` level (an empty pattern occurs trivially). -/
def strContainsSub (s t : String) : Bool :=
  match t.data with
  | [] => true
  | p :: ps => containsL p ps s.data

/-- Prefix test at the `String` level. -/
def strBeginsWith (s t : String) : Bool :=
  beginsWith s.data t.data

/-- One left-to-right pass removing every leftmost non-overlapping occurrence
of the nonempty pattern `p :: ps`, as Python `str.replace(pat, "")` does.
After a match the scan resumes past the matched block.  The fuel argument is
only a structural-termination device: each step consumes at least one
character, so fuel `s.length` (as supplied by `pyReplace`) is never
exhausted and the `0` clause is unreachable. -/
def removeAllFuel (p : Char) (ps : List Char) : Nat → List Char → List Char
  | _, [] => []
  | 0, c :: s => c :: s
  | Nat.succ f, c :: s =>
    if beginsWith (c :: s) (p :: ps) then removeAllFuel p ps f (List.drop ps.length s)
    else c :: removeAllFuel p ps f s

/-- Python `s.replace(pat, "")`: remove every leftmost non-overlapping
occurrence of `pat` from `s` in a single left-to-right pass.  (Python's
`replace` with an empty pattern and empty replacement returns `s`.) -/
def pyReplace (s pat : String) : String :=
  match pat.data with
  | [] => s
  | p :: ps => String.mk (removeAllFuel p ps s.data.length s.data)

/-- Modelled from the spec: remove only the FIRST literal occurrence of the
nonempty pattern `p :: ps`, leaving later occurrences intact. -/
def removeFirstL (p : Char) (ps : List Char) : List Char → List Char
  | [] => []
  | c :: s =>
    if beginsWith (c :: s) (p :: ps) then List.drop ps.length s
    else c :: removeFirstL p ps s

/-- Modelled from the spec (§4.2 step 1 as the claims read it): remove the
first literal occurrence of `pat` from `s`. -/
def removeFirstOcc (s pat : String) : String :=
  match pat.data with
  | [] => s
  | p :: ps => String.mk (removeFirstL p ps s.data)

/-! ## Data model -/

/-- The six options of the tone selectbox (app.py lines 37–38). -/
inductive Tone where
  | formal
  | friendly
  | apologetic
  | urgent
  | professional
  | casual
deriving DecidableEq, Repr

/-- The exact option string the selectbox stores in the `tone` variable. -/
def Tone.label : Tone → String
  | .formal => "Formal"
  | .friendly => "Friendly"
  | .apologetic => "Apologetic"
  | .urgent => "Urgent"
  | .professional => "Professional"
  | .casual => "Casual"

/-- One submission's form fields (spec §3 `EmailRequest`).  Text widgets
always yield a string, with `""` for an untouched field; `sender_name` and
`sender_position` hold what the two signature widgets would yield, but the
script only binds the corresponding Python variables when
`include_signature` is checked (see `sender_name_var`). -/
structure EmailRequest where
  recipient : String
  subject : String
  purpose : String
  tone : Tone
  include_greeting : Bool
  include_signature : Bool
  sender_name : String
  sender_position : String
deriving DecidableEq, Repr

/-- The script assigns the Python variable `sender_name` only inside
`if include_signature:` (app.py lines 45–47); when the box is unchecked the
name is never bound in that run of the script. -/
def sender_name_var (req : EmailRequest) : Option String :=
  if req.include_signature then some req.sender_name else none

/-- Same for `sender_position` (app.py line 47). -/
def sender_position_var (req : EmailRequest) : Option String :=
  if req.include_signature then some req.sender_position else none

/-! ## Prompt builder (app.py lines 59–77) -/

/-- The 12-space indentation inside the prompt triple-quoted f-string. -/
def sp12 : String := "            "

/-- The 20-space indentation inside the fallback triple-quoted f-string. -/
def sp20 : String := "                    "

/-- The prompt template, built by sequential conditional concatenation
exactly as app.py lines 59–77 do.  Python truthiness of a string is
non-emptiness, so `if recipient:` is `recipient != ""`.  The signature
condition `include_signature and sender_name` short-circuits, so the
(possibly unbound) `sender_name` is only read when `include_signature`
is true, where it is bound; reading the record field is therefore
faithful. -/
def buildPrompt (req : EmailRequest) : String :=
  let t0 := "\n" ++ sp12 ++ "Write a " ++ pyLower req.tone.label ++ " email\n" ++ sp12
  let t1 :=
    if req.include_greeting && req.recipient != "" then
      t0 ++ " that starts with a greeting to " ++ req.recipient
    else t0
  let t2 := t1 ++ " about the following: " ++ req.purpose ++ "."
  let t3 :=
    if req.subject != "" then
      t2 ++ " The email subject is: \x27" ++ req.subject ++ "\x27."
    else t2
  let t4 := t3 ++ " The email should be professional, well-structured with clear paragraphs."
  if req.include_signature && req.sender_name != "" then
    let signature :=
      req.sender_name ++
        (if req.sender_position != "" then ", " ++ req.sender_position else "")
    t4 ++ " End the email with a proper closing and signature: " ++ signature ++ "."
  else t4

/-- The clauses the prompt is assembled from, as structured data (spec §9
asks for the prompt as an ordered list of optional clause rules). -/
inductive Clause where
  | base (tone : Tone)
  | greeting (recipient : String)
  | purposeClause (purpose : String)
  | subjectClause (subject : String)
  | structureClause
  | signatureClause (name position : String)
deriving DecidableEq, Repr

/-- The text each clause contributes to the prompt. -/
def renderClause : Clause → String
  | .base t => "\n" ++ sp12 ++ "Write a " ++ pyLower t.label ++ " email\n" ++ sp12
  | .greeting r => " that starts with a greeting to " ++ r
  | .purposeClause p => " about the following: " ++ p ++ "."
  | .subjectClause s => " The email subject is: \x27" ++ s ++ "\x27."
  | .structureClause => " The email should be professional, well-structured with clear paragraphs."
  | .signatureClause n q =>
    " End the email with a proper closing and signature: " ++
      (n ++ (if q != "" then ", " ++ q else "")) ++ "."

/-- Concatenation of rendered clauses. -/
def renderClauses : List Clause → String
  | [] => ""
  | c :: cs => renderClause c ++ renderClauses cs

/-- The prompt's clause list, in the fixed order of app.py lines 59–77:
base, optional greeting, purpose, optional subject, fixed structure clause,
optional signature. -/
def promptClauses (req : EmailRequest) : List Clause :=
  Clause.base req.tone ::
    ((if req.include_greeting && req.recipient != "" then [Clause.greeting req.recipient] else [])
      ++ [Clause.purposeClause req.purpose]
      ++ (if req.subject != "" then [Clause.subjectClause req.subject] else [])
      ++ [Clause.structureClause]
      ++ (if req.include_signature && req.sender_name != "" then
            [Clause.signatureClause req.sender_name req.sender_position]
          else []))

/-- Is there a greeting clause in the list? -/
def hasGreetingClause (req : EmailRequest) : Bool :=
  (promptClauses req).any fun c => match c with | .greeting _ => true | _ => false

/-- Is there a subject clause in the list? -/
def hasSubjectClause (req : EmailRequest) : Bool :=
  (promptClauses req).any fun c => match c with | .subjectClause _ => true | _ => false

/-- Is there a signature clause in the list? -/
def hasSignatureClause (req : EmailRequest) : Bool :=
  (promptClauses req).any fun c => match c with | .signatureClause _ _ => true | _ => false

/-! ## Response postprocessor (app.py lines 90–103) -/

/-- `str(e)` for the `NameError` raised by the fallback f-string when the
script run never bound `sender_name` (because `include_signature` was
unchecked). -/
def nameErrorMsg : String := "name \x27sender_name\x27 is not defined"

/-- The fallback f-string of app.py lines 95–103, character-exact: a leading
newline, then each line prefixed by the literal 20-space indentation of the
source, including the three lines whose interpolated value is empty.
Evaluating the f-string reads the Python variables `sender_name` and
`sender_position`; when `include_signature` was unchecked those names are
unbound and Python raises `NameError`. -/
def fallbackText (req : EmailRequest) : Except String String :=
  match sender_name_var req, sender_position_var req with
  | some n, some q =>
    .ok ("\n" ++ sp20
      ++ (if req.recipient != "" then "Dear " ++ req.recipient ++ "," else "Hello,")
      ++ "\n" ++ sp20
      ++ "\n" ++ sp20 ++ req.purpose
      ++ "\n" ++ sp20
      ++ "\n" ++ sp20
      ++ (if req.tone.label == "Formal" || req.tone.label == "Professional" then
            "Best regards,"
          else "Thanks,")
      ++ "\n" ++ sp20 ++ (if n != "" then n else "")
      ++ "\n" ++ sp20 ++ (if q != "" then q else "")
      ++ "\n" ++ sp20)
  | _, _ => .error nameErrorMsg

/-- The stripping step of app.py line 91:
`email_text = output.replace(prompt_template, "").strip()`. -/
def stripStep (output prompt_template : String) : String :=
  pyStrip (pyReplace output prompt_template)

/-- app.py lines 90–103: strip the echoed prompt, and fall back to the
template when fewer than 50 characters remain. -/
def postprocess (prompt_template output : String) (req : EmailRequest) : Except String String :=
  let email_text := stripStep output prompt_template
  if email_text.length < 50 then fallbackText req else .ok email_text

/-! ## One submission (app.py lines 56–120) -/

/-- What the results column shows after one press of the Generate button. -/
inductive ViewAction where
  | drafted (text : String)
  | errorShown (message : String)
  | infoShown
deriving DecidableEq, Repr

/-- One press of the Generate button, with the generation engine abstracted
as a function from prompt to raw text.  Line 56 gates on
`generate_button and purpose` (the button is pressed here, so on the
truthiness of `purpose`); the `except` handler of lines 116–118 renders a
raised error as `st.error("Error generating email: " + str(e))`; the `else`
of lines 119–120 shows only the informational fill-in prompt. -/
def submit (req : EmailRequest) (generator : String → String) : ViewAction :=
  if req.purpose != "" then
    let prompt_template := buildPrompt req
    let output := generator prompt_template
    match postprocess prompt_template output req with
    | .ok email_text => .drafted email_text
    | .error e => .errorShown ("Error generating email: " ++ e)
  else .infoShown

/-! ## Spec-side definitions

These follow the wording of the specification and claims, to be compared
with the code-side definitions above. -/

/-- Lines joined by a separator (used to state the fallback template the
way the spec describes it, line by line). -/
def joinLines (sep : String) : List String → String
  | [] => ""
  | [l] => l
  | l :: ls => l ++ sep ++ joinLines sep ls

/-- Modelled from the spec: the fallback greeting line,
"Dear {recipient}," if `recipient` is non-empty, else "Hello,". -/
def greetLine (req : EmailRequest) : String :=
  if req.recipient ≠ "" then "Dear " ++ req.recipient ++ "," else "Hello,"

/-- Modelled from the spec: the fallback closing line, "Best regards," if
the tone is Formal or Professional, else "Thanks,". -/
def closingLine (req : EmailRequest) : String :=
  if req.tone = Tone.formal ∨ req.tone = Tone.professional then "Best regards," else "Thanks,"

/-- The fallback draft described line by line: an opening blank line, the
greeting line, a blank line, the purpose, a blank line, the closing line,
then one line for `sender_name` and one for `sender_position` (present as
empty-valued lines even when the field is empty), all joined by a newline
plus the source's 20-space indentation. -/
def fallbackLines (req : EmailRequest) : String :=
  joinLines ("\n" ++ sp20)
    ["", greetLine req, "", req.purpose, "", closingLine req,
      req.sender_name, req.sender_position, ""]

/-- Modelled from the claim's words for C8: the same template but with the
`sender_name` / `sender_position` lines omitted entirely when the field is
empty. -/
def fallbackOmitting (req : EmailRequest) : String :=
  "\n" ++ sp20 ++ greetLine req
    ++ "\n" ++ sp20 ++ "\n" ++ sp20 ++ req.purpose
    ++ "\n" ++ sp20 ++ "\n" ++ sp20 ++ closingLine req
    ++ (if req.sender_name ≠ "" then "\n" ++ sp20 ++ req.sender_name else "")
    ++ (if req.sender_position ≠ "" then "\n" ++ sp20 ++ req.sender_position else "")
    ++ "\n" ++ sp20

/-! ## Helper lemmas on the string primitives -/

theorem beginsWith_nil (s : List Char) : beginsWith s [] = true := by
  cases s <;> rfl

theorem beginsWith_refl (s : List Char) : beginsWith s s = true := by
  induction s with
  | nil => rfl
  | cons c s ih => simp [beginsWith, ih]

theorem beginsWith_append_self (s t : List Char) : beginsWith (s ++ t) s = true := by
  induction s with
  | nil => exact beginsWith_nil t
  | cons c s ih => simp [beginsWith, ih]

theorem beginsWith_append_of (s t pat : List Char) (h : beginsWith s pat = true) :
    beginsWith (s ++ t) pat = true := by
  induction pat generalizing s with
  | nil => exact beginsWith_nil _
  | cons q qs ih =>
    cases s with
    | nil => simp [beginsWith] at h
    | cons c s =>
      simp only [beginsWith, Bool.and_eq_true] at h
      simp only [List.cons_append, beginsWith, Bool.and_eq_true]
      exact ⟨h.1, ih s h.2⟩

theorem containsL_append_left (p : Char) (ps a s : List Char)
    (h : containsL p ps s = true) : containsL p ps (a ++ s) = true := by
  induction a with
  | nil => simpa using h
  | cons c a ih => simp [containsL, ih]

theorem containsL_append_right (p : Char) (ps s b : List Char)
    (h : containsL p ps s = true) : containsL p ps (s ++ b) = true := by
  induction s with
  | nil => simp [containsL] at h
  | cons c s ih =>
    simp only [containsL, Bool.or_eq_true] at h
    rcases h with h | h
    · have := beginsWith_append_of (c :: s) b (p :: ps) h
      simp only [List.cons_append, containsL, Bool.or_eq_true]
      exact Or.inl (by simpa using this)
    · simp only [List.cons_append, containsL, Bool.or_eq_true]
      exact Or.inr (ih h)

theorem containsL_self (p : Char) (ps : List Char) : containsL p ps (p :: ps) = true := by
  simp [containsL, beginsWith_refl]

theorem strContainsSub_of_nil (s t : String) (ht : t.data = []) :
    strContainsSub s t = true := by
  unfold strContainsSub
  rw [ht]

theorem strContainsSub_of_cons (s t : String) (p : Char) (ps : List Char)
    (ht : t.data = p :: ps) : strContainsSub s t = containsL p ps s.data := by
  unfold strContainsSub
  rw [ht]

theorem strContainsSub_self (s : String) : strContainsSub s s = true := by
  cases ht : s.data with
  | nil => exact strContainsSub_of_nil s s ht
  | cons p ps =>
    rw [strContainsSub_of_cons s s p ps ht, ht]
    exact containsL_self p ps

theorem strContainsSub_append_left (a s t : String)
    (h : strContainsSub s t = true) : strContainsSub (a ++ s) t = true := by
  cases ht : t.data with
  | nil => exact strContainsSub_of_nil _ t ht
  | cons p ps =>
    rw [strContainsSub_of_cons s t p ps ht] at h
    rw [strContainsSub_of_cons (a ++ s) t p ps ht, String.data_append]
    exact containsL_append_left p ps a.data s.data h

theorem strContainsSub_append_right (s b t : String)
    (h : strContainsSub s t = true) : strContainsSub (s ++ b) t = true := by
  cases ht : t.data with
  | nil => exact strContainsSub_of_nil _ t ht
  | cons p ps =>
    rw [strContainsSub_of_cons s t p ps ht] at h
    rw [strContainsSub_of_cons (s ++ b) t p ps ht, String.data_append]
    exact containsL_append_right p ps s.data b.data h

theorem strBeginsWith_append (s t : String) : strBeginsWith (s ++ t) s = true := by
  unfold strBeginsWith
  rw [String.data_append]
  exact beginsWith_append_self s.data t.data

/-! ## Grounding: the prompt is the rendering of its clause list -/

theorem buildPrompt_eq_renderClauses (req : EmailRequest) :
    buildPrompt req = renderClauses (promptClauses req) := by
  cases hg : (req.include_greeting && req.recipient != "") <;>
    cases hs : (req.subject != "") <;>
      cases hsig : (req.include_signature && req.sender_name != "") <;>
        simp [buildPrompt, promptClauses, renderClauses, renderClause, hg, hs, hsig,
          String.append_assoc, String.append_empty, -String.reduceAppend]

/-! ## Replace-all versus remove-first -/

theorem removeAllFuel_id_of_not_contains (p : Char) (ps : List Char) :
    ∀ (f : Nat) (s : List Char), s.length ≤ f → containsL p ps s = false →
      removeAllFuel p ps f s = s := by
  intro f
  induction f with
  | zero =>
    intro s hf _
    cases s with
    | nil => rfl
    | cons c s => simp at hf
  | succ f ih =>
    intro s hf hc
    cases s with
    | nil => rfl
    | cons c s =>
      simp only [containsL, Bool.or_eq_false_iff] at hc
      simp only [removeAllFuel]
      rw [if_neg (by simp [hc.1]), ih s (by simpa using hf) hc.2]

theorem removeAllFuel_eq_removeFirstL (p : Char) (ps : List Char) :
    ∀ (f : Nat) (s : List Char), s.length ≤ f →
      containsL p ps (removeFirstL p ps s) = false →
      removeAllFuel p ps f s = removeFirstL p ps s := by
  intro f
  induction f with
  | zero =>
    intro s hf _
    cases s with
    | nil => rfl
    | cons c s => simp at hf
  | succ f ih =>
    intro s hf hc
    cases s with
    | nil => rfl
    | cons c s =>
      simp only [removeFirstL] at hc ⊢
      simp only [removeAllFuel]
      by_cases hb : beginsWith (c :: s) (p :: ps) = true
      · rw [if_pos hb] at hc
        rw [if_pos hb, if_pos hb]
        have hlen : (List.drop ps.length s).length ≤ f := by
          rw [List.length_drop]
          simp at hf
          omega
        exact removeAllFuel_id_of_not_contains p ps f _ hlen hc
      · rw [if_neg hb] at hc
        rw [if_neg hb, if_neg hb]
        simp only [containsL, Bool.or_eq_false_iff] at hc
        rw [ih s (by simpa using hf) hc.2]

/-- The code's one-pass removal agrees with the spec's remove-first exactly
when the pattern does not occur in what remove-first leaves behind. -/
theorem pyReplace_eq_removeFirstOcc (output prompt_template : String)
    (h : strContainsSub (removeFirstOcc output prompt_template) prompt_template = false) :
    pyReplace output prompt_template = removeFirstOcc output prompt_template := by
  cases ht : prompt_template.data with
  | nil =>
    unfold pyReplace removeFirstOcc
    rw [ht]
  | cons p ps =>
    unfold pyReplace removeFirstOcc
    rw [ht]
    have hc : containsL p ps (removeFirstL p ps output.data) = false := by
      have := strContainsSub_of_cons (removeFirstOcc output prompt_template)
        prompt_template p ps ht
      rw [this] at h
      unfold removeFirstOcc at h
      rw [ht] at h
      simpa using h
    exact congrArg String.mk
      (removeAllFuel_eq_removeFirstL p ps output.data.length output.data (Nat.le_refl _) hc)

/-! ## Fallback lemmas -/

/-- Python `x if x else ""` on a string is the string itself. -/
theorem truthy_or_empty (n : String) : (if n != "" then n else "") = n := by
  by_cases h : n = "" <;> simp [h]

/-- The same fact in if-negation-normalised form. -/
theorem empty_or_self (n : String) : (if n = "" then "" else n) = n := by
  by_cases h : n = "" <;> simp [h]

/-- With `include_signature` checked the fallback f-string evaluates, and it
is exactly the line-by-line template `fallbackLines`. -/
theorem fallbackText_ok_of_signature (req : EmailRequest)
    (h : req.include_signature = true) :
    fallbackText req = Except.ok (fallbackLines req) := by
  cases req with
  | mk recipient subject purpose tone include_greeting include_signature sender_name sender_position =>
    cases tone <;>
      by_cases hr : recipient = "" <;>
        simp_all [fallbackText, sender_name_var, sender_position_var, fallbackLines, joinLines,
          greetLine, closingLine, Tone.label, truthy_or_empty, empty_or_self,
          String.append_assoc, String.append_empty, -String.reduceAppend]

/-- With `include_signature` unchecked the fallback f-string raises
`NameError`. -/
theorem fallbackText_error_of_no_signature (req : EmailRequest)
    (h : req.include_signature = false) :
    fallbackText req = Except.error nameErrorMsg := by
  have hn : sender_name_var req = none := by
    simp [sender_name_var, h]
  have hq : sender_position_var req = none := by
    simp [sender_position_var, h]
  unfold fallbackText
  rw [hn, hq]

/-- Decidable equality for the postprocessor result type, so that concrete
runs can be checked by evaluation. -/
instance {ε α : Type} [DecidableEq ε] [DecidableEq α] : DecidableEq (Except ε α) := fun a b =>
  match a, b with
  | .ok x, .ok y => if h : x = y then isTrue (by rw [h]) else isFalse (by simp [h])
  | .error x, .error y => if h : x = y then isTrue (by rw [h]) else isFalse (by simp [h])
  | .ok _, .error _ => isFalse (by simp)
  | .error _, .ok _ => isFalse (by simp)

/-- A substring found in one clause is found in the rendering of any clause
list containing that clause. -/
theorem strContainsSub_renderClauses (t : String) (c : Clause) (cs : List Clause)
    (hc : c ∈ cs) (h : strContainsSub (renderClause c) t = true) :
    strContainsSub (renderClauses cs) t = true := by
  induction cs with
  | nil => cases hc
  | cons c0 cs ih =>
    rw [renderClauses]
    rcases List.mem_cons.mp hc with rfl | hmem
    · exact strContainsSub_append_right _ _ _ h
    · exact strContainsSub_append_left _ _ _ (ih hmem)

/-! ## Concrete requests used as evaluation inputs -/

/-- The scenario request of spec §8. -/
def scenarioReq : EmailRequest :=
  { recipient := "John Doe"
    subject := "Meeting Request"
    purpose := "Apologizing for missing the meeting"
    tone := Tone.formal
    include_greeting := true
    include_signature := true
    sender_name := "Jane Smith"
    sender_position := "Marketing Manager" }

/-- The same submission with the signature box unchecked. -/
def sigOffReq : EmailRequest :=
  { recipient := "John Doe"
    subject := "Meeting Request"
    purpose := "Apologizing for missing the meeting"
    tone := Tone.formal
    include_greeting := true
    include_signature := false
    sender_name := "Jane Smith"
    sender_position := "Marketing Manager" }

/-- A submission whose recipient is a single space (whitespace-only). -/
def wsReq : EmailRequest :=
  { recipient := " "
    subject := ""
    purpose := "p"
    tone := Tone.casual
    include_greeting := true
    include_signature := true
    sender_name := ""
    sender_position := "" }

/-- Signature box checked but both signature fields left empty. -/
def emptySenderReq : EmailRequest :=
  { recipient := ""
    subject := ""
    purpose := "Need the report"
    tone := Tone.casual
    include_greeting := true
    include_signature := true
    sender_name := ""
    sender_position := "" }

/-- A submission with the required purpose field left empty. -/
def emptyPurposeReq : EmailRequest :=
  { recipient := "John Doe"
    subject := "Hello"
    purpose := ""
    tone := Tone.formal
    include_greeting := true
    include_signature := true
    sender_name := "Jane Smith"
    sender_position := "Marketing Manager" }

/-- A submission whose purpose is a single space (non-empty but blank). -/
def blankPurposeReq : EmailRequest :=
  { recipient := ""
    subject := ""
    purpose := " "
    tone := Tone.casual
    include_greeting := false
    include_signature := true
    sender_name := ""
    sender_position := "" }

/-! ## The claims -/

/-- C1 (amended): after the stripping step, a result of 50 or more
characters is returned unchanged; below 50 characters the result is the
fallback template exactly when `include_signature` is true, and otherwise
the fallback f-string raises `NameError` instead of producing any draft. -/
theorem C1_postprocess_characterization (prompt_template output : String) (req : EmailRequest) :
    postprocess prompt_template output req =
      if (stripStep output prompt_template).length < 50 then
        (if req.include_signature = true then Except.ok (fallbackLines req)
         else Except.error nameErrorMsg)
      else Except.ok (stripStep output prompt_template) := by
  simp only [postprocess]
  by_cases hlt : (stripStep output prompt_template).length < 50
  · rw [if_pos hlt, if_pos hlt]
    cases hs : req.include_signature
    · rw [if_neg (by simp), fallbackText_error_of_no_signature req hs]
    · rw [if_pos rfl, fallbackText_ok_of_signature req hs]
  · rw [if_neg hlt, if_neg hlt]

set_option maxRecDepth 8192 in
/-- C1 counterexample: with the signature box unchecked and a degenerate
generation (the engine echoes the prompt and adds nothing), the
postprocessor does not return the fallback draft for the request — it
produces no string at all, raising `NameError` instead. -/
theorem C1_short_output_without_signature_yields_no_draft :
    postprocess (buildPrompt sigOffReq) (buildPrompt sigOffReq) sigOffReq =
      Except.error nameErrorMsg ∧
    (postprocess (buildPrompt sigOffReq) (buildPrompt sigOffReq) sigOffReq).isOk = false := by
  constructor <;> rfl

/-- C2 (amended): the stripping step applies Python `replace`, which removes
every leftmost non-overlapping occurrence of the prompt, not only the
first; in particular it agrees with remove-first-then-trim whenever the
prompt does not occur in what remove-first leaves behind (a sufficient
condition: one pass over a remainder without the pattern removes nothing
more). -/
theorem C2_strip_agrees_when_no_second_occurrence (prompt_template output : String)
    (h : strContainsSub (removeFirstOcc output prompt_template) prompt_template = false) :
    pyReplace output prompt_template = removeFirstOcc output prompt_template ∧
    stripStep output prompt_template = pyStrip (removeFirstOcc output prompt_template) := by
  have h1 := pyReplace_eq_removeFirstOcc output prompt_template h
  exact ⟨h1, by unfold stripStep; rw [h1]⟩

/-- C2 witness: a raw text containing the prompt once. -/
theorem C2_strip_agrees_witness :
    pyReplace "Xhello" "X" = removeFirstOcc "Xhello" "X" ∧
    stripStep "Xhello" "X" = pyStrip (removeFirstOcc "Xhello" "X") :=
  C2_strip_agrees_when_no_second_occurrence "X" "Xhello" (by decide)

/-- C2 counterexample: when the prompt occurs twice in the raw text the
code's stripping step also removes the second occurrence, so it differs
from removing only the first occurrence and trimming. -/
theorem C2_second_occurrence_also_removed :
    stripStep "abcabc" "abc" ≠ pyStrip (removeFirstOcc "abcabc" "abc") ∧
    pyReplace "abcabc" "abc" = "" ∧
    removeFirstOcc "abcabc" "abc" = "abc" := by
  refine ⟨by decide, rfl, rfl⟩

set_option maxRecDepth 8192 in
/-- C3: the fallback branch is reached with `include_signature` unchecked
(signature widgets never rendered, Python variables unbound), so the
fallback f-string raises `NameError` and the submission surfaces a
generation error instead of the guaranteed well-formed draft. -/
theorem C3_fallback_raises_for_unchecked_signature :
    submit sigOffReq (fun p => p) =
      ViewAction.errorShown ("Error generating email: " ++ nameErrorMsg) ∧
    fallbackText sigOffReq = Except.error nameErrorMsg := by
  constructor <;> rfl

/-- C4: with the signature box unchecked, the values of the two sender
fields influence neither the built prompt nor the postprocessor's output on
any prompt and raw text — both are what they would be with the fields
empty. -/
theorem C4_sender_fields_inert_without_signature (req : EmailRequest) (n q : String)
    (prompt_template output : String) (h : req.include_signature = false) :
    buildPrompt { req with sender_name := n, sender_position := q } =
      buildPrompt { req with sender_name := "", sender_position := "" } ∧
    postprocess prompt_template output { req with sender_name := n, sender_position := q } =
      postprocess prompt_template output { req with sender_name := "", sender_position := "" } := by
  cases req with
  | mk recipient subject purpose tone include_greeting include_signature sender_name sender_position =>
    subst h
    exact ⟨rfl, rfl⟩

/-- C4 witness: the concrete unchecked-signature request with sender fields
set versus emptied. -/
theorem C4_sender_fields_inert_witness :
    buildPrompt { sigOffReq with sender_name := "Ann", sender_position := "CEO" } =
      buildPrompt { sigOffReq with sender_name := "", sender_position := "" } ∧
    postprocess "prompt" "raw output" { sigOffReq with sender_name := "Ann", sender_position := "CEO" } =
      postprocess "prompt" "raw output" { sigOffReq with sender_name := "", sender_position := "" } :=
  C4_sender_fields_inert_without_signature sigOffReq "Ann" "CEO" "prompt" "raw output" rfl

/-- C5: the prompt (the rendering of its clause list) has a greeting clause
exactly when `include_greeting` is set and the recipient is non-empty, and
a signature clause exactly when `include_signature` is set and the sender
name is non-empty. -/
theorem C5_greeting_and_signature_clause_conditions (req : EmailRequest) :
    buildPrompt req = renderClauses (promptClauses req) ∧
    hasGreetingClause req = (req.include_greeting && req.recipient != "") ∧
    hasSignatureClause req = (req.include_signature && req.sender_name != "") := by
  refine ⟨buildPrompt_eq_renderClauses req, ?_, ?_⟩ <;>
    cases hg : (req.include_greeting && req.recipient != "") <;>
      cases hs : (req.subject != "") <;>
        cases hsig : (req.include_signature && req.sender_name != "") <;>
          simp [hasGreetingClause, hasSignatureClause, promptClauses, hg, hs, hsig]

/-- C6 (amended): the prompt is the rendering of the fixed-order clause
list whose head is the base clause; the base clause is a prefix of the
prompt but reads "\n            Write a {tone} email\n            " — the
tone lowercased, wrapped in the f-string's newline and indentation, with no
trailing period; the prompt contains the purpose verbatim and the fixed
professional/well-structured clause. -/
theorem C6_prompt_assembly (req : EmailRequest) :
    buildPrompt req = renderClauses (promptClauses req) ∧
    (promptClauses req).head? = some (Clause.base req.tone) ∧
    strBeginsWith (buildPrompt req) (renderClause (Clause.base req.tone)) = true ∧
    strContainsSub (buildPrompt req) req.purpose = true ∧
    strContainsSub (buildPrompt req)
      " The email should be professional, well-structured with clear paragraphs." = true := by
  have hg := buildPrompt_eq_renderClauses req
  refine ⟨hg, rfl, ?_, ?_, ?_⟩
  · rw [hg, promptClauses, renderClauses]
    exact strBeginsWith_append _ _
  · rw [hg]
    apply strContainsSub_renderClauses req.purpose (Clause.purposeClause req.purpose)
    · simp [promptClauses]
    · exact strContainsSub_append_right _ _ _
        (strContainsSub_append_left _ _ _ (strContainsSub_self _))
  · rw [hg]
    apply strContainsSub_renderClauses _ Clause.structureClause
    · simp [promptClauses]
    · exact strContainsSub_self _

set_option maxRecDepth 8192 in
/-- C6 counterexample: for the spec's own scenario request the built prompt
neither begins with nor even contains the claimed base clause
"Write a formal email." — the prompt opens with a newline and indentation
and has no period after "email". -/
theorem C6_base_clause_not_as_claimed :
    strBeginsWith (buildPrompt scenarioReq) "Write a formal email." = false ∧
    strContainsSub (buildPrompt scenarioReq) "Write a formal email." = false := by
  constructor <;> rfl

/-- C7 (amended): an optional field's clause is skipped exactly when the
field is the empty string; whitespace-only values count as present and are
rendered. -/
theorem C7_only_exactly_empty_is_absent (req : EmailRequest) :
    hasGreetingClause req = (req.include_greeting && req.recipient != "") ∧
    hasSubjectClause req = (req.subject != "") ∧
    hasSignatureClause req = (req.include_signature && req.sender_name != "") := by
  refine ⟨?_, ?_, ?_⟩ <;>
    cases hg : (req.include_greeting && req.recipient != "") <;>
      cases hs : (req.subject != "") <;>
        cases hsig : (req.include_signature && req.sender_name != "") <;>
          simp [hasGreetingClause, hasSubjectClause, hasSignatureClause, promptClauses,
            hg, hs, hsig]

set_option maxRecDepth 8192 in
/-- C7 counterexample: a whitespace-only recipient is not treated as
absent — the greeting clause is rendered into the prompt with the blank
value. -/
theorem C7_whitespace_recipient_not_skipped :
    wsReq.recipient = " " ∧ hasGreetingClause wsReq = true ∧
    strContainsSub (buildPrompt wsReq) " that starts with a greeting to " = true := by
  refine ⟨rfl, rfl, by decide⟩

/-- C8 (amended): whenever `include_signature` is true (so the sender
variables are bound), the fallback draft is exactly the line template: the
conditional greeting line, the purpose as body, the conditional closing
line, then a line carrying `sender_name` and a line carrying
`sender_position` — these two lines are rendered (as indented empty lines)
even when the fields are empty, not omitted. -/
theorem C8_fallback_is_line_template (req : EmailRequest)
    (h : req.include_signature = true) :
    fallbackText req = Except.ok (fallbackLines req) :=
  fallbackText_ok_of_signature req h

/-- C8 witness: the scenario request's fallback. -/
theorem C8_fallback_is_line_template_witness :
    fallbackText scenarioReq = Except.ok (fallbackLines scenarioReq) :=
  C8_fallback_is_line_template scenarioReq rfl

set_option maxRecDepth 8192 in
/-- C8 counterexample: with the signature box unchecked the fallback raises
instead of producing a draft at all; and with it checked but the sender
fields empty, the draft is not the claimed lines-omitted-when-empty
template — the two empty signature lines remain. -/
theorem C8_fallback_deviates_from_claim :
    fallbackText sigOffReq = Except.error nameErrorMsg ∧
    fallbackText emptySenderReq ≠ Except.ok (fallbackOmitting emptySenderReq) := by
  refine ⟨rfl, by decide⟩

/-- C9: a submission with empty purpose is a no-op — only the informational
prompt is shown, and the outcome does not depend on the generation engine
at all (no prompt is built, no engine call is made). -/
theorem C9_empty_purpose_is_noop (req : EmailRequest) (g g2 : String → String)
    (h : req.purpose = "") :
    submit req g = ViewAction.infoShown ∧ submit req g = submit req g2 := by
  constructor <;> simp [submit, h]

/-- C9 witness: a concrete purpose-less submission under two different
engines. -/
theorem C9_empty_purpose_is_noop_witness :
    submit emptyPurposeReq (fun _ => "") = ViewAction.infoShown ∧
    submit emptyPurposeReq (fun _ => "") = submit emptyPurposeReq (fun p => p) :=
  C9_empty_purpose_is_noop emptyPurposeReq (fun _ => "") (fun p => p) rfl

/-- C10: a whitespace-only purpose is truthy, so the gate treats it as
present: the submission is not the informational no-op, and its outcome is
the full pipeline — the engine applied to the built prompt, postprocessed
and displayed. -/
theorem C10_blank_purpose_generates (req : EmailRequest) (g : String → String)
    (hws : ∀ c ∈ req.purpose.data, pyIsSpace c = true) (hne : req.purpose ≠ "") :
    submit req g ≠ ViewAction.infoShown ∧
    submit req g =
      (match postprocess (buildPrompt req) (g (buildPrompt req)) req with
        | .ok email_text => ViewAction.drafted email_text
        | .error e => ViewAction.errorShown ("Error generating email: " ++ e)) := by
  have hb : (req.purpose != "") = true := by simpa using hne
  constructor
  · simp [submit, hb]
    split <;> simp
  · simp only [submit, hb]
    rfl

/-- C10 witness: the single-space purpose. -/
theorem C10_blank_purpose_generates_witness :
    submit blankPurposeReq (fun _ => "") ≠ ViewAction.infoShown ∧
    submit blankPurposeReq (fun _ => "") =
      (match postprocess (buildPrompt blankPurposeReq)
          ((fun _ => "") (buildPrompt blankPurposeReq)) blankPurposeReq with
        | .ok email_text => ViewAction.drafted email_text
        | .error e => ViewAction.errorShown ("Error generating email: " ++ e)) :=
  C10_blank_purpose_generates blankPurposeReq (fun _ => "") (by decide) (by decide)
